import Mathlib

/-!
Verification development for the multi-source asset resolution core of a
scratch-storage fork: the resolution coordinator in `src/ScratchStorage.js`
and the remote helper in `FirebaseHelper.js` (provided unnamed), shallowly
embedded as executable Lean definitions.  Promises are modelled by their
eventual outcome; the sequential continuation chains of the source become
structural recursion over the list of per-candidate outcomes.
-/

namespace Spec2Proof

/-- The value a Helper's `load` returns, as observed by the coordinator
(`ScratchStorage.load`, lines 163-173).  JavaScript lets a helper return
either a non-promise (`null`, the skip sentinel, or `undefined`) or a
promise; a promise is modelled by its eventual settlement.  `α` is the
asset payload type, `ε` the rejection-reason type. -/
inductive HelperReturn (α ε : Type) where
  | nullSentinel
  | undef
  | resolvedWith (a : Option α)
  | rejectedWith (e : ε)
deriving DecidableEq, Repr

/-- The observable outcome of `ScratchStorage.load`: a promise resolving
with an asset or `null`, a promise rejecting with the accumulated error
list, or the TypeError raised when a helper returns `undefined` and the
coordinator evaluates `loading.catch` on it (line 171-173). -/
inductive LoadResult (α ε : Type) where
  | resolved (a : Option α)
  | rejected (errors : List ε)
  | typeError
deriving DecidableEq, Repr

namespace ScratchStorage

/-- Embeds `tryNextHelper` of `ScratchStorage.load` (lines 158-182).
`errors` is the closure variable of the same name; the list argument holds
the outcomes of the helpers not yet attempted, in `_helpers` order.  The
source records a rejection reason only when `if (err)` holds, so the
JavaScript truthiness of reasons is passed in as `isTruthy` (every reason
this codebase produces - an `Error` object or an array - is truthy).
A helper returning the `null` sentinel is skipped without recording
(line 167-169); a returned promise is chained only through
`.catch(tryNextHelper)` (line 171-173), so a fulfilled promise - whether
with an asset or with `null` - settles the whole call; on exhaustion the
call rejects with the recorded errors when any exist, else resolves
`null` (lines 174-181). -/
def tryNextHelper {α ε : Type} (isTruthy : ε → Bool) (errors : List ε) :
    List (HelperReturn α ε) → LoadResult α ε
  | [] => if errors.length > 0 then .rejected errors else .resolved none
  | .nullSentinel :: rest => tryNextHelper isTruthy errors rest
  | .undef :: _ => .typeError
  | .resolvedWith a :: _ => .resolved a
  | .rejectedWith e :: rest =>
      tryNextHelper isTruthy (if isTruthy e then errors ++ [e] else errors) rest

/-- Embeds `ScratchStorage.load` (lines 150-185): the walk starts with an
empty error list over the helpers' outcomes taken in `_helpers` order. -/
def load {α ε : Type} (isTruthy : ε → Bool)
    (outcomes : List (HelperReturn α ε)) : LoadResult α ε :=
  tryNextHelper isTruthy [] outcomes

/-- The rejection reasons the walk records, in attempt order: exactly the
reasons of rejecting helpers that pass the `if (err)` truthiness test. -/
def recordedErrors {α ε : Type} (isTruthy : ε → Bool) :
    List (HelperReturn α ε) → List ε
  | [] => []
  | .rejectedWith e :: rest =>
      if isTruthy e then e :: recordedErrors isTruthy rest
      else recordedErrors isTruthy rest
  | _ :: rest => recordedErrors isTruthy rest

/-- An entry of the coordinator's `_helpers` array: a helper (opaque,
identified by a number here) tagged with a priority
(`{helper, priority}`, lines 88-91). -/
structure HelperEntry where
  helper : Nat
  priority : Int
deriving DecidableEq, Repr

/-- The order the comparator `(a, b) => b.priority - a.priority`
(line 90) sorts by: descending priority. -/
def priorityGe (a b : HelperEntry) : Prop :=
  b.priority ≤ a.priority

instance : DecidableRel priorityGe := fun a b =>
  inferInstanceAs (Decidable (b.priority ≤ a.priority))

instance : IsTotal HelperEntry priorityGe :=
  ⟨fun a b => Int.le_total b.priority a.priority⟩

instance : IsTrans HelperEntry priorityGe :=
  ⟨fun _ _ _ h1 h2 => le_trans h2 h1⟩

/-- Embeds `addHelper` (lines 88-91): push the new entry, then sort the
array descending by priority.  JavaScript's `Array.prototype.sort` with a
numeric comparator yields a (stable) sorted permutation; it is modelled by
a stable insertion sort under `priorityGe`. -/
def addHelper (hs : List HelperEntry) (helper : Nat) (priority : Int) :
    List HelperEntry :=
  List.insertionSort priorityGe (hs ++ [⟨helper, priority⟩])

/-- The `_helpers` array built by the constructor (lines 19-28): the
built-in helper (id 0) at priority 100, the firebase helper (id 1) at
priority -100. -/
def initialHelpers : List HelperEntry :=
  [⟨0, 100⟩, ⟨1, -100⟩]

end ScratchStorage

/-- An asset type as the helpers see it: a name used for filtering and a
default runtime format (`AssetType.js` entries; only these two fields are
consulted by the code under verification). -/
structure AssetType where
  name : String
  runtimeFormat : String
deriving DecidableEq, Repr

/-- The Project asset type, whose name triggers the explicit carve-outs in
`FirebaseHelper.load` (lines 74-77) and `FirebaseHelper.store`
(lines 131-134). -/
def projectType : AssetType := ⟨"Project", "json"⟩

/-- A vector-image asset type used as a concrete non-Project instance. -/
def imageVector : AssetType := ⟨"ImageVector", "svg"⟩

/-- A sound asset type used as a concrete non-Project instance. -/
def soundType : AssetType := ⟨"Sound", "mp3"⟩

namespace FirebaseHelper

/-- A StoreRecord of `FirebaseHelper.stores`: asset-type names plus the
firebase storage handle (opaque, a string here).  `addStore` (lines 50-55)
pushes only `{types, storageReference}`; the `create` and `update` fields
read by `store` (line 125) are `undefined` on such records - JavaScript
`undefined` is falsy, modelled as `false`. -/
structure StoreRecord where
  types : List String
  storageReference : String
  create : Bool
  update : Bool
deriving DecidableEq, Repr

/-- Embeds `addStore` (lines 50-55): append a record holding the mapped
type names and the storage handle; no capability flag is ever set. -/
def addStore (stores : List StoreRecord) (types : List AssetType)
    (firebaseStorageReference : String) : List StoreRecord :=
  stores ++ [⟨types.map (fun assetType => assetType.name),
              firebaseStorageReference, false, false⟩]

/-- The observable result of `FirebaseHelper.load`: the returned value
(`value`) together with the storage keys `getBytes` is invoked on before
the function returns (`getBytesKeys`).  The asset payload type is `Unit`
because this `load` can never fulfil with an asset (see `load` below);
rejection reasons are the `errors` array of attempted-URL records. -/
structure LoadReturn where
  value : HelperReturn Unit (List String)
  getBytesKeys : List String
deriving DecidableEq, Repr

/-- Embeds `FirebaseHelper.load` (lines 64-105).  The source filters
`stores` to those whose type list contains the requested type name
(lines 68-69), returns `undefined` after a warning for the Project type
(lines 74-77), and otherwise calls `tryNextSource()` (line 104).
`tryNextSource` (lines 80-102) either hits the end of the candidate list
and returns `Promise.reject(errors)` - with `errors` still empty, since
nothing was recorded before the first call - or starts
`getBytes(ref(storageRef, assetId + . + dataFormat))` WITHOUT returning
the resulting promise chain (the `.then` result at lines 93-99 is
discarded), logs a warning, and falls off the end, returning `undefined`.
Only the first candidate's fetch is issued before the return; any later
fetches happen inside the detached chain and cannot influence the
returned value. -/
def load (stores : List StoreRecord) (assetType : AssetType)
    (assetId dataFormat : String) : LoadReturn :=
  let candidates := stores.filter
    (fun s => s.types.contains assetType.name)
  if assetType.name == "Project" then ⟨.undef, []⟩
  else
    match candidates with
    | [] => ⟨.rejectedWith [], []⟩
    | _ :: _ => ⟨.undef, [assetId ++ "." ++ dataFormat]⟩

/-- The observable result of `FirebaseHelper.store`:
`rejectedNoStores` is `Promise.reject(new Error(No appropriate stores))`
(line 129), `undef` the Project carve-out return (lines 131-134), and
`upload` the promise of `uploadBytes(ref(storageRef, assetId), data)`
(lines 136-138) - the only constructor representing a network call. -/
inductive StoreReturn where
  | rejectedNoStores
  | undef
  | upload (storageReference : String) (key : Option String) (data : List Nat)
deriving DecidableEq, Repr

/-- The `create` flag of `FirebaseHelper.store` (line 117):
`assetId === empty-string || assetId === null || typeof assetId ===
undefined`.  `none` models an absent or null id, `some` a present
string. -/
def isCreateId : Option String → Bool
  | none => true
  | some s => s == ""

/-- The filter predicate of `FirebaseHelper.store` (lines 120-127): the
record lists the asset type AND `(create && s.create) || s.update`. -/
def storeEligible (create : Bool) (assetType : AssetType)
    (s : StoreRecord) : Bool :=
  s.types.contains assetType.name && ((create && s.create) || s.update)

/-- The eligibility test of `FirebaseHelper.store`, restated as a
proposition for the claim about store selection: the record lists the
requested type name, and it has the update capability or - on a create
request - the create capability.  Note the create branch: the source
predicate `(create AND s.create) OR s.update` lets an update-capable
record serve a create request. -/
def EligibleFor (assetType : AssetType) (create : Bool)
    (s : StoreRecord) : Prop :=
  assetType.name ∈ s.types ∧
    ((create = true ∧ s.create = true) ∨ s.update = true)

instance (assetType : AssetType) (create : Bool) (s : StoreRecord) :
    Decidable (EligibleFor assetType create s) :=
  inferInstanceAs (Decidable (_ ∧ _))

/-- Embeds `FirebaseHelper.store` (lines 115-140): compute the `create`
flag, take the first record passing `storeEligible` (the `.filter(...)[0]`
of lines 120-127), reject with the no-appropriate-stores error when there
is none (line 129), return `undefined` with a warning for the Project type
(lines 131-134), and otherwise upload the data to the chosen store under
the raw `assetId` key (lines 136-138). -/
def store (stores : List StoreRecord) (assetType : AssetType)
    (dataFormat : String) (data : List Nat) (assetId : Option String) :
    StoreReturn :=
  let create := isCreateId assetId
  match stores.filter (storeEligible create assetType) with
  | [] => .rejectedNoStores
  | s :: _ =>
      if assetType.name == "Project" then .undef
      else .upload s.storageReference assetId data

end FirebaseHelper

/-- The metadata object a successful backend write resolves with; the
coordinator reads its `id` field (`body.id`, line 201). -/
structure Metadata where
  id : String
deriving DecidableEq, Repr

/-- Settlement of a store promise: fulfilled with backend metadata or
rejected with an error of type `ε`. -/
inductive StorePromise (ε : Type) where
  | resolved (body : Metadata)
  | rejected (e : ε)
deriving DecidableEq, Repr

namespace ScratchStorage

/-- Embeds `ScratchStorage.store` (lines 195-206).  `helperResult` is the
settlement of `firebaseHelper.store(...)`; `mirrorStore` models
`builtinHelper._store(assetType, dataFormat, data, body.id)` - whose
source is not part of the provided files - as a call that either returns
or throws, keyed by the id it is invoked with (the other three arguments
are the fixed arguments of the surrounding call).  Per the source, the
`.then` callback first runs `_store` and only then calls `resolve(body)`;
an exception thrown by `_store` therefore reaches
`.catch(error => reject(error))` and rejects the outer promise.  The
second component reports the id `_store` was invoked with, `none` when it
was never called. -/
def store {ε : Type} (mirrorStore : String → Except ε Unit)
    (helperResult : StorePromise ε) : StorePromise ε × Option String :=
  match helperResult with
  | .rejected e => (.rejected e, none)
  | .resolved body =>
      match mirrorStore body.id with
      | .ok _ => (.resolved body, some body.id)
      | .error e => (.rejected e, some body.id)

end ScratchStorage

/-!
Helper lemmas about the coordinator walk, shared by several claim
theorems below.
-/

/-- Walking past a block of outcomes that are all the skip sentinel or a
rejection reaches the remainder of the list with some accumulated error
list. -/
lemma tryNextHelper_past_prefix {α ε : Type} (isTruthy : ε → Bool) :
    ∀ (pre : List (HelperReturn α ε)) (errs : List ε)
      (rest : List (HelperReturn α ε)),
      (∀ o ∈ pre, o = HelperReturn.nullSentinel ∨
        ∃ e, o = HelperReturn.rejectedWith e) →
      ∃ errs2, ScratchStorage.tryNextHelper isTruthy errs (pre ++ rest)
        = ScratchStorage.tryNextHelper isTruthy errs2 rest := by
  intro pre
  induction pre with
  | nil => intro errs rest _; exact ⟨errs, rfl⟩
  | cons o pre ih =>
      intro errs rest h
      have hpre : ∀ x ∈ pre, x = HelperReturn.nullSentinel ∨
          ∃ e, x = HelperReturn.rejectedWith e :=
        fun x hx => h x (List.mem_cons_of_mem _ hx)
      rcases h o (List.mem_cons_self o pre) with h1 | ⟨e, h2⟩
      · subst h1
        exact ih errs rest hpre
      · subst h2
        exact ih _ rest hpre

/-- On a list of outcomes that are all the skip sentinel or a rejection,
the walk terminates in the exhaustion branch: it rejects with the
accumulated errors when any exist, else resolves null. -/
lemma tryNextHelper_exhaust {α ε : Type} (isTruthy : ε → Bool) :
    ∀ (outcomes : List (HelperReturn α ε)) (errs : List ε),
      (∀ o ∈ outcomes, o = HelperReturn.nullSentinel ∨
        ∃ e, o = HelperReturn.rejectedWith e) →
      ScratchStorage.tryNextHelper isTruthy errs outcomes =
        (if (errs ++ ScratchStorage.recordedErrors isTruthy outcomes).length > 0
         then .rejected (errs ++ ScratchStorage.recordedErrors isTruthy outcomes)
         else .resolved none) := by
  intro outcomes
  induction outcomes with
  | nil =>
      intro errs _
      simp [ScratchStorage.tryNextHelper, ScratchStorage.recordedErrors]
  | cons o rest ih =>
      intro errs h
      have hrest : ∀ x ∈ rest, x = HelperReturn.nullSentinel ∨
          ∃ e, x = HelperReturn.rejectedWith e :=
        fun x hx => h x (List.mem_cons_of_mem _ hx)
      rcases h o (List.mem_cons_self o rest) with h1 | ⟨e, h2⟩
      · subst h1
        simpa [ScratchStorage.tryNextHelper, ScratchStorage.recordedErrors]
          using ih errs hrest
      · subst h2
        by_cases ht : isTruthy e = true
        · have := ih (errs ++ [e]) hrest
          simpa [ScratchStorage.tryNextHelper, ScratchStorage.recordedErrors,
            ht, List.append_assoc] using this
        · have := ih errs hrest
          simpa [ScratchStorage.tryNextHelper, ScratchStorage.recordedErrors,
            ht] using this

/-- The walk's result does not depend on anything after a helper whose
promise fulfils with an asset. -/
lemma tryNextHelper_suffix_indep {α ε : Type} (isTruthy : ε → Bool) :
    ∀ (pre : List (HelperReturn α ε)) (errs : List ε) (a : α)
      (post1 post2 : List (HelperReturn α ε)),
      ScratchStorage.tryNextHelper isTruthy errs
          (pre ++ HelperReturn.resolvedWith (some a) :: post1)
        = ScratchStorage.tryNextHelper isTruthy errs
          (pre ++ HelperReturn.resolvedWith (some a) :: post2) := by
  intro pre
  induction pre with
  | nil => intro errs a p1 p2; rfl
  | cons o pre ih =>
      intro errs a p1 p2
      cases o with
      | nullSentinel => exact ih errs a p1 p2
      | undef => rfl
      | resolvedWith b => rfl
      | rejectedWith e => exact ih _ a p1 p2

/-- Sortedness is preserved by any sequence of `addHelper` registrations
starting from a sorted helper list. -/
lemma sorted_foldl_addHelper :
    ∀ (regs : List (Nat × Int)) (hs : List ScratchStorage.HelperEntry),
      List.Sorted ScratchStorage.priorityGe hs →
      List.Sorted ScratchStorage.priorityGe
        (regs.foldl (fun l r => ScratchStorage.addHelper l r.1 r.2) hs) := by
  intro regs
  induction regs with
  | nil => intro hs h; exact h
  | cons r regs ih =>
      intro hs _
      simp only [List.foldl_cons]
      exact ih _ (List.sorted_insertionSort ScratchStorage.priorityGe _)

/-!
Claim theorems.
-/

/-- Claim C1, counterexample.  The claim says a Helper promise resolving
to null makes the coordinator advance to the next Helper.  In the code the
promise is chained only through `.catch(tryNextHelper)`, so a fulfilment
with null settles the whole call: with a first helper resolving null and a
second helper that would resolve an asset, `load` resolves null - the
second helper's asset is never reached, refuting the claimed
advancement. -/
theorem c1_counterexample :
    ScratchStorage.load (fun _ => true)
        ([.resolvedWith none, .resolvedWith (some 0)] :
          List (HelperReturn Nat Nat))
      = .resolved none
    ∧ (LoadResult.resolved none : LoadResult Nat Nat)
        ≠ .resolved (some 0) :=
  ⟨rfl, by decide⟩

/-- Claim C1, amended.  Only the non-promise null sentinel makes the
coordinator advance to the next Helper without recording an error; a
promise that resolves to null instead settles the overall call, which
resolves null whatever helpers remain. -/
theorem c1_amended : ∀ (α ε : Type) (isTruthy : ε → Bool) (errs : List ε)
    (rest : List (HelperReturn α ε)),
    ScratchStorage.tryNextHelper isTruthy errs
        (HelperReturn.nullSentinel :: rest)
      = ScratchStorage.tryNextHelper isTruthy errs rest
    ∧ ScratchStorage.tryNextHelper isTruthy errs
        (HelperReturn.resolvedWith none :: rest)
      = .resolved none :=
  fun _ _ _ _ _ => ⟨rfl, rfl⟩

/-- Claim C2, counterexample.  The claim says that whenever every Helper
has been attempted without producing a non-null Asset and an error was
recorded, the call rejects with the recorded errors.  With a first helper
rejecting (error recorded) and a last helper resolving null, every helper
has been attempted and none produced an asset, yet the call resolves null
instead of rejecting with the recorded error list. -/
theorem c2_counterexample :
    ScratchStorage.load (fun _ => true)
        ([.rejectedWith 5, .resolvedWith none] : List (HelperReturn Nat Nat))
      = .resolved none
    ∧ (LoadResult.resolved none : LoadResult Nat Nat) ≠ .rejected [5] :=
  ⟨rfl, by decide⟩

/-- Claim C2, amended.  When the walk exhausts the helper list - every
helper returned the skip sentinel or a rejecting promise - the call
rejects with exactly the recorded errors in attempt order when any were
recorded, and otherwise resolves null. -/
theorem c2_amended {α ε : Type} (isTruthy : ε → Bool)
    (outcomes : List (HelperReturn α ε))
    (h : ∀ o ∈ outcomes, o = HelperReturn.nullSentinel ∨
      ∃ e, o = HelperReturn.rejectedWith e) :
    ScratchStorage.load isTruthy outcomes =
      (if (ScratchStorage.recordedErrors isTruthy outcomes).length > 0
       then .rejected (ScratchStorage.recordedErrors isTruthy outcomes)
       else .resolved none) := by
  have := tryNextHelper_exhaust isTruthy outcomes [] h
  simpa [ScratchStorage.load] using this

/-- Claim C2 amended, witness: one rejecting helper followed by one
sentinel helper rejects with exactly the one recorded error. -/
theorem c2_witness :
    ScratchStorage.load (fun _ => true)
        ([.rejectedWith 5, .nullSentinel] : List (HelperReturn Nat Nat))
      = .rejected [5] := by
  have h := c2_amended (fun _ => true)
    ([.rejectedWith 5, .nullSentinel] : List (HelperReturn Nat Nat))
    (by
      intro o ho
      rcases List.mem_cons.mp ho with h1 | h2
      · exact Or.inr ⟨5, h1⟩
      · exact Or.inl (by simpa using h2))
  simpa [ScratchStorage.recordedErrors] using h

/-- Claim C6, confirmed.  If the helpers before position k all either
returned the skip sentinel or rejected (at least one recording an error),
and helper k's promise fulfils with an asset, the overall call resolves
with that asset: the recorded errors are discarded and the call does not
reject. -/
theorem c6_success_suppresses_errors {α ε : Type} (isTruthy : ε → Bool)
    (pre post : List (HelperReturn α ε)) (a : α)
    (hpre : ∀ o ∈ pre, o = HelperReturn.nullSentinel ∨
      ∃ e, o = HelperReturn.rejectedWith e)
    (hrec : ∃ e, HelperReturn.rejectedWith e ∈ pre ∧ isTruthy e = true) :
    ScratchStorage.load isTruthy
        (pre ++ HelperReturn.resolvedWith (some a) :: post)
      = .resolved (some a) := by
  obtain ⟨errs2, heq⟩ := tryNextHelper_past_prefix isTruthy pre []
    (HelperReturn.resolvedWith (some a) :: post) hpre
  rw [ScratchStorage.load, heq]
  rfl

/-- Claim C6, witness: a rejecting helper followed by a successful one
resolves with the success despite the recorded error. -/
theorem c6_witness :
    ScratchStorage.load (fun _ => true)
        ([.rejectedWith 7, .resolvedWith (some 3)] :
          List (HelperReturn Nat Nat))
      = .resolved (some 3) :=
  c6_success_suppresses_errors (fun _ => true) [.rejectedWith 7] [] 3
    (fun o ho => Or.inr ⟨7, by simpa using ho⟩)
    ⟨7, by simp, rfl⟩

/-- Claim C7, confirmed.  After any sequence of `addHelper` registrations
on top of the constructor's initial helper list, the helper collection is
sorted in descending priority order; and the load walk consumes the
outcome list in that order, a fulfilled asset at any position making the
result independent of every later helper (lower-priority helpers are
never consulted once a higher-priority one succeeds). -/
theorem c7_priority_order :
    (∀ regs : List (Nat × Int),
      List.Sorted ScratchStorage.priorityGe
        (regs.foldl (fun hs r => ScratchStorage.addHelper hs r.1 r.2)
          ScratchStorage.initialHelpers))
    ∧ (∀ (α ε : Type) (isTruthy : ε → Bool) (errs : List ε)
        (pre post1 post2 : List (HelperReturn α ε)) (a : α),
        ScratchStorage.tryNextHelper isTruthy errs
            (pre ++ HelperReturn.resolvedWith (some a) :: post1)
          = ScratchStorage.tryNextHelper isTruthy errs
            (pre ++ HelperReturn.resolvedWith (some a) :: post2)) := by
  constructor
  · intro regs
    apply sorted_foldl_addHelper
    simp [ScratchStorage.initialHelpers, List.sorted_cons,
      ScratchStorage.priorityGe]
  · intro α ε isTruthy errs pre p1 p2 a
    exact tryNextHelper_suffix_indep isTruthy pre errs a p1 p2

/-- The Boolean filter predicate of `FirebaseHelper.store` decides the
`EligibleFor` proposition. -/
lemma storeEligible_iff_EligibleFor (create : Bool) (t : AssetType)
    (s : FirebaseHelper.StoreRecord) :
    FirebaseHelper.storeEligible create t s = true ↔
      FirebaseHelper.EligibleFor t create s := by
  simp [FirebaseHelper.storeEligible, FirebaseHelper.EligibleFor,
    Bool.and_eq_true, Bool.or_eq_true]

/-- Claim C3, code evaluated at the failing input: one store is
registered for the requested type and `load` is called for it, yet the
function returns `undefined` after firing a dangling `getBytes` on the
store - the promised lazy fallback chain that should resolve the asset is
unreachable because the `getBytes` chain is never returned. -/
theorem c3_dangling_fetch :
    FirebaseHelper.load
        [⟨["ImageVector"], "s0", false, false⟩] imageVector "abc" "svg"
      = ⟨.undef, ["abc.svg"]⟩
    ∧ ∀ a, (FirebaseHelper.load
        [⟨["ImageVector"], "s0", false, false⟩] imageVector "abc" "svg").value
      ≠ HelperReturn.resolvedWith a := by
  decide

/-- Claim C9, counterexample.  With zero registered stores for the
requested (non-Project) type, `FirebaseHelper.load` does not return the
non-promise null sentinel: it returns a promise rejecting with the empty
error list. -/
theorem c9_counterexample :
    (FirebaseHelper.load [] imageVector "abc" "svg").value
        = HelperReturn.rejectedWith []
    ∧ (HelperReturn.rejectedWith [] : HelperReturn Unit (List String))
        ≠ HelperReturn.nullSentinel := by
  decide

/-- Claim C9, amended.  When zero registered StoreRecords declare the
requested non-Project type, the remote helper's `load` returns a promise
that rejects with the (still empty) error list, and issues no fetch. -/
theorem c9_amended (stores : List FirebaseHelper.StoreRecord)
    (t : AssetType) (assetId dataFormat : String)
    (hT : t.name ≠ "Project")
    (hNone : stores.filter (fun s => s.types.contains t.name) = []) :
    FirebaseHelper.load stores t assetId dataFormat
      = ⟨HelperReturn.rejectedWith [], []⟩ := by
  have hproj : (t.name == "Project") = false := by
    rw [beq_eq_false_iff_ne]
    exact hT
  have hNone2 : stores.filter (fun s => decide (t.name ∈ s.types)) = [] := by
    simpa using hNone
  simp [FirebaseHelper.load, hproj, hNone2]

/-- Claim C9 amended, witness: an empty store list and the vector-image
type produce the rejecting promise with the empty error list. -/
theorem c9_witness :
    FirebaseHelper.load [] imageVector "abc" "svg"
      = ⟨HelperReturn.rejectedWith [], []⟩ :=
  c9_amended [] imageVector "abc" "svg" (by decide) rfl

/-- Claim C4, counterexample.  On a create request (absent asset id) the
filter `(create AND s.create) OR s.update` accepts a record declaring
only the update capability, so the call uploads through it instead of
rejecting - refuting the claim that only create-capable records are
eligible on a create request. -/
theorem c4_counterexample :
    FirebaseHelper.isCreateId none = true
    ∧ (⟨["Sound"], "s1", false, true⟩ :
        FirebaseHelper.StoreRecord).create = false
    ∧ FirebaseHelper.store [⟨["Sound"], "s1", false, true⟩]
        soundType "mp3" [] none
      = .upload "s1" none []
    ∧ FirebaseHelper.StoreReturn.upload "s1" none []
        ≠ .rejectedNoStores := by
  decide

/-- Claim C4, amended.  For a non-Project type: the call rejects with the
no-appropriate-stores error exactly when no registered record is eligible,
where a record is eligible when it lists the type and has the update
capability or - on a create request - the create capability (so a create
request also accepts update-capable records); otherwise the first
eligible record in registration order receives the single upload.  The
rejection happens without any upload: `StoreReturn.upload` is the only
constructor representing a network call. -/
theorem c4_amended (stores : List FirebaseHelper.StoreRecord)
    (t : AssetType) (dataFormat : String) (data : List Nat)
    (assetId : Option String) (hT : t.name ≠ "Project") :
    (FirebaseHelper.store stores t dataFormat data assetId
        = .rejectedNoStores
      ↔ ∀ s ∈ stores,
          ¬ FirebaseHelper.EligibleFor t (FirebaseHelper.isCreateId assetId) s)
    ∧ (∀ pre s post, stores = pre ++ s :: post →
        FirebaseHelper.EligibleFor t (FirebaseHelper.isCreateId assetId) s →
        (∀ x ∈ pre,
          ¬ FirebaseHelper.EligibleFor t (FirebaseHelper.isCreateId assetId) x) →
        FirebaseHelper.store stores t dataFormat data assetId
          = .upload s.storageReference assetId data) := by
  have hproj : (t.name == "Project") = false := by
    rw [beq_eq_false_iff_ne]
    exact hT
  constructor
  · rcases hf : stores.filter
        (FirebaseHelper.storeEligible (FirebaseHelper.isCreateId assetId) t)
      with _ | ⟨s0, rest⟩
    · simp only [FirebaseHelper.store, hf]
      constructor
      · intro _ s hs hel
        have hmem : s ∈ stores.filter
            (FirebaseHelper.storeEligible (FirebaseHelper.isCreateId assetId) t) :=
          List.mem_filter.mpr
            ⟨hs, (storeEligible_iff_EligibleFor _ t s).mpr hel⟩
        rw [hf] at hmem
        exact absurd hmem (List.not_mem_nil s)
      · intro _; trivial
    · have hs0 : s0 ∈ stores.filter
          (FirebaseHelper.storeEligible (FirebaseHelper.isCreateId assetId) t) := by
        rw [hf]; exact List.mem_cons_self s0 rest
      have hs0m := List.mem_filter.mp hs0
      simp only [FirebaseHelper.store, hf, hproj]
      constructor
      · intro h
        simp at h
      · intro hall
        exact absurd ((storeEligible_iff_EligibleFor _ t s0).mp hs0m.2)
          (hall s0 hs0m.1)
  · intro pre s post hdecomp hel hpre
    have hfil : stores.filter
        (FirebaseHelper.storeEligible (FirebaseHelper.isCreateId assetId) t)
        = s :: post.filter
          (FirebaseHelper.storeEligible (FirebaseHelper.isCreateId assetId) t) := by
      rw [hdecomp, List.filter_append]
      rw [List.filter_eq_nil_iff.mpr (fun x hx =>
        fun hb => hpre x hx ((storeEligible_iff_EligibleFor _ t x).mp hb))]
      rw [List.filter_cons_of_pos
        ((storeEligible_iff_EligibleFor _ t s).mpr hel)]
      rfl
    simp only [FirebaseHelper.store, hfil, hproj]
    rfl

/-- Claim C4 amended, witness: an update request with a first
non-matching record and a second update-capable matching record uploads
through the second record. -/
theorem c4_witness :
    FirebaseHelper.store
        [⟨["ImageVector"], "s0", false, false⟩, ⟨["Sound"], "s1", false, true⟩]
        soundType "mp3" [] (some "x")
      = .upload "s1" (some "x") [] :=
  (c4_amended
      [⟨["ImageVector"], "s0", false, false⟩, ⟨["Sound"], "s1", false, true⟩]
      soundType "mp3" [] (some "x") (by decide)).2
    [⟨["ImageVector"], "s0", false, false⟩] ⟨["Sound"], "s1", false, true⟩ []
    rfl (by decide) (by decide)

/-- Claim C8, counterexample.  A store request for the Project type with
no registered stores does not short-circuit with the undefined
non-promise result: the no-appropriate-stores rejection is reached first,
because the Project carve-out sits after the store-selection filter. -/
theorem c8_counterexample :
    FirebaseHelper.store [] projectType "json" [] (some "p1")
      = FirebaseHelper.StoreReturn.rejectedNoStores
    ∧ FirebaseHelper.StoreReturn.rejectedNoStores
        ≠ FirebaseHelper.StoreReturn.undef := by
  decide

/-- Claim C8, amended.  For the Project type, `load` always
short-circuits with undefined, a warning and no fetch; `store` never
issues an upload, but it short-circuits with undefined exactly when some
registered record passes the store-selection filter (lists the type and
has the required capability) - and rejects with the no-appropriate-stores
error (a promise, not the undefined sentinel) exactly when none does. -/
theorem c8_amended (t : AssetType) (hT : t.name = "Project")
    (stores : List FirebaseHelper.StoreRecord)
    (assetId dataFormat : String) (data : List Nat)
    (storeId : Option String) :
    FirebaseHelper.load stores t assetId dataFormat = ⟨.undef, []⟩
    ∧ (∀ r k d, FirebaseHelper.store stores t dataFormat data storeId
        ≠ .upload r k d)
    ∧ (FirebaseHelper.store stores t dataFormat data storeId = .undef
        ↔ ∃ s ∈ stores,
            FirebaseHelper.EligibleFor t (FirebaseHelper.isCreateId storeId) s)
    ∧ (FirebaseHelper.store stores t dataFormat data storeId
          = .rejectedNoStores
        ↔ ∀ s ∈ stores,
            ¬ FirebaseHelper.EligibleFor t (FirebaseHelper.isCreateId storeId) s) := by
  have hproj : (t.name == "Project") = true := by
    rw [beq_iff_eq]
    exact hT
  refine ⟨by simp [FirebaseHelper.load, hproj], ?_⟩
  rcases hf : stores.filter
      (FirebaseHelper.storeEligible (FirebaseHelper.isCreateId storeId) t)
    with _ | ⟨s0, rest⟩
  · have hstore : FirebaseHelper.store stores t dataFormat data storeId
        = .rejectedNoStores := by
      simp only [FirebaseHelper.store, hf]
    have hnone : ∀ s ∈ stores,
        ¬ FirebaseHelper.EligibleFor t (FirebaseHelper.isCreateId storeId) s := by
      intro s hs hel
      have hmem : s ∈ stores.filter
          (FirebaseHelper.storeEligible (FirebaseHelper.isCreateId storeId) t) :=
        List.mem_filter.mpr
          ⟨hs, (storeEligible_iff_EligibleFor _ t s).mpr hel⟩
      rw [hf] at hmem
      exact absurd hmem (List.not_mem_nil s)
    refine ⟨?_, ?_, ?_⟩
    · intro r k d h
      rw [hstore] at h
      simp at h
    · constructor
      · intro h
        rw [hstore] at h
        simp at h
      · rintro ⟨s, hs, hel⟩
        exact absurd hel (hnone s hs)
    · exact ⟨fun _ => hnone, fun _ => hstore⟩
  · have hs0 : s0 ∈ stores.filter
        (FirebaseHelper.storeEligible (FirebaseHelper.isCreateId storeId) t) := by
      rw [hf]
      exact List.mem_cons_self s0 rest
    have hs0m := List.mem_filter.mp hs0
    have hel0 : FirebaseHelper.EligibleFor t (FirebaseHelper.isCreateId storeId) s0 :=
      (storeEligible_iff_EligibleFor _ t s0).mp hs0m.2
    have hstore : FirebaseHelper.store stores t dataFormat data storeId
        = .undef := by
      simp only [FirebaseHelper.store, hf, hproj]
      rfl
    refine ⟨?_, ?_, ?_⟩
    · intro r k d h
      rw [hstore] at h
      simp at h
    · exact ⟨fun _ => ⟨s0, hs0m.1, hel0⟩, fun _ => hstore⟩
    · constructor
      · intro h
        rw [hstore] at h
        simp at h
      · intro hall
        exact absurd hel0 (hall s0 hs0m.1)

/-- Claim C8 amended, witness: a Project load with no stores returns
undefined with no fetch; a Project store against one eligible
(update-capable, Project-typed) record returns undefined, while against
no stores it rejects with the no-appropriate-stores error. -/
theorem c8_witness :
    FirebaseHelper.load [] projectType "p1" "json" = ⟨.undef, []⟩
    ∧ FirebaseHelper.store [⟨["Project"], "s2", false, true⟩]
        projectType "json" [] (some "p1") = .undef
    ∧ FirebaseHelper.store [] projectType "json" [] (some "p1")
        = .rejectedNoStores :=
  ⟨(c8_amended projectType rfl [] "p1" "json" [] (some "p1")).1,
   (c8_amended projectType rfl [⟨["Project"], "s2", false, true⟩]
       "p1" "json" [] (some "p1")).2.2.1.mpr
     ⟨⟨["Project"], "s2", false, true⟩, List.mem_singleton.mpr rfl, by decide⟩,
   (c8_amended projectType rfl [] "p1" "json" [] (some "p1")).2.2.2.mpr
     (fun s hs => absurd hs (List.not_mem_nil s))⟩

/-- Every record produced by a sequence of `addStore` registrations has
both capability flags unset. -/
lemma addStore_no_flags :
    ∀ (regs : List (List AssetType × String))
      (acc : List FirebaseHelper.StoreRecord),
      (∀ s ∈ acc, s.create = false ∧ s.update = false) →
      ∀ s ∈ regs.foldl (fun l r => FirebaseHelper.addStore l r.1 r.2) acc,
        s.create = false ∧ s.update = false := by
  intro regs
  induction regs with
  | nil => intro acc h; exact h
  | cons r regs ih =>
      intro acc h
      simp only [List.foldl_cons]
      apply ih
      intro s hs
      rw [FirebaseHelper.addStore] at hs
      rcases List.mem_append.mp hs with h1 | h2
      · exact h s h1
      · rw [List.mem_singleton.mp h2]
        exact ⟨rfl, rfl⟩

/-- Claim C10, confirmed.  `addStore` records only the type names and the
backend handle - never a capability flag - so against a store list built
purely by `addStore` registrations, every `store` call rejects with the
no-appropriate-stores error (and `StoreReturn.upload`, the only
network-call constructor, is never produced), whatever the type, format,
data or asset id. -/
theorem c10_addStore_never_storable :
    ∀ (regs : List (List AssetType × String)) (t : AssetType)
      (dataFormat : String) (data : List Nat) (assetId : Option String),
      FirebaseHelper.store
          (regs.foldl (fun l r => FirebaseHelper.addStore l r.1 r.2) []) t
          dataFormat data assetId
        = .rejectedNoStores := by
  intro regs t dataFormat data assetId
  have hflags := addStore_no_flags regs [] (by simp)
  have hfil : (regs.foldl (fun l r => FirebaseHelper.addStore l r.1 r.2)
        []).filter
        (FirebaseHelper.storeEligible (FirebaseHelper.isCreateId assetId) t)
      = [] := by
    apply List.filter_eq_nil_iff.mpr
    intro s hs
    have h := hflags s hs
    simp [FirebaseHelper.storeEligible, h.1, h.2]
  simp only [FirebaseHelper.store, hfil]

/-- Claim C5, counterexample.  When the remote write succeeds and the
cache-mirroring `_store` call throws, the overall store promise rejects
with the mirror's error instead of resolving with the backend metadata:
the mirror failure is not swallowed, because `_store` runs inside the
`.then` callback before `resolve(body)` and its exception reaches the
`.catch(error => reject(error))` handler. -/
theorem c5_counterexample :
    ScratchStorage.store (fun _ => Except.error (7 : Nat))
        (StorePromise.resolved ⟨"id1"⟩)
      = (StorePromise.rejected 7, some "id1")
    ∧ (StorePromise.rejected 7 : StorePromise Nat)
        ≠ StorePromise.resolved ⟨"id1"⟩ :=
  ⟨rfl, by decide⟩

/-- Claim C5, amended.  On remote-write success the written data is
mirrored into the built-in helper's cache keyed by the id of the returned
metadata; when the mirror write returns normally the overall promise
resolves with the metadata, but when it throws the overall promise
rejects with the thrown error. -/
theorem c5_amended {ε : Type} (mirrorStore : String → Except ε Unit)
    (body : Metadata) :
    (mirrorStore body.id = Except.ok () →
      ScratchStorage.store mirrorStore (StorePromise.resolved body)
        = (StorePromise.resolved body, some body.id))
    ∧ (∀ e, mirrorStore body.id = Except.error e →
      ScratchStorage.store mirrorStore (StorePromise.resolved body)
        = (StorePromise.rejected e, some body.id)) := by
  constructor
  · intro h
    simp [ScratchStorage.store, h]
  · intro e h
    simp [ScratchStorage.store, h]

/-- Claim C5 amended, witness: a successful helper write with a
non-throwing mirror resolves with the metadata and mirrors under the
metadata's id. -/
theorem c5_witness :
    ScratchStorage.store (fun _ => (Except.ok () : Except Nat Unit))
        (StorePromise.resolved ⟨"id1"⟩)
      = (StorePromise.resolved ⟨"id1"⟩, some "id1") :=
  (c5_amended (fun _ => (Except.ok () : Except Nat Unit)) ⟨"id1"⟩).1 rfl

end Spec2Proof
